import Mathlib

/-!
# Verification of the `storageSyncPlugin` cross-window Pinia sync plugin

This file embeds the Pinia plugin `storageSyncPlugin` (the variant at
`src/unnamed/part_000` lines 123-199, together with the option surface in
`src/storageSyncPlugin/src/types/pinia.d.ts`) into Lean and proves properties
of its source/acceptor arbitration protocol.

Modelling choices, all driven by the source:

* `localStorage` is an association list `Storage` of string keys and string
  values with `getItem` / `setItem` / `removeItem`.  Real `localStorage` keeps
  at most one entry per key; `setItem` replaces the first matching entry and
  `removeItem` removes every matching entry, which agrees with the browser on
  every storage reachable from well-formed ones.
* JS truthiness of `string | null` values (`!localStorage.getItem(k)`,
  `event.newValue`, `if (storedState)`) is `truthy`: `null` and the empty
  string are falsy, every other string is truthy.
* `JSON.stringify` / `JSON.parse` are external collaborators; they are
  modelled by a `Codec`: a total serializer and a deserializer returning
  `Option` where `none` models `JSON.parse` throwing a `SyntaxError`.
  `boolCodec` is the restriction of real JSON to boolean values
  (`JSON.stringify(true) = "true"`, `JSON.parse("true") = true`, and
  `JSON.parse` throws on a word like `"oops"`); it instantiates theorems at
  concrete inputs.
* `store.$patch(newState)` is always called with a full deserialized snapshot
  of the same store, so it is modelled as replacing the local state by
  `newState`.
* A function that can hit an uncaught JS exception returns
  `Except Unit a`; `.error ()` is the exception propagating, and it is only
  produced before any patch or write happens on that path.
* The debounce timer slot `debounceTimer` is a single `Option` cell holding
  the state captured by the pending `setTimeout` callback;
  `clearTimeout` + `setTimeout` is cancel-and-replace of that cell.  The
  `$subscribe` handler performs no storage operation itself: all writes
  happen in the timer callback (`flush`).
-/

/-- `localStorage` contents: key/value entries, at most one per key in any
reachable storage. -/
def Storage : Type := List (String × String)

/-- `localStorage.getItem(k)`: first entry with key `k`, `none` for JS `null`. -/
def getItem : Storage → String → Option String
  | [], _ => none
  | p :: rest, k => if p.1 = k then some p.2 else getItem rest k

/-- `localStorage.setItem(k, v)`: replace the (first) entry for `k`, or append. -/
def setItem : Storage → String → String → Storage
  | [], k, v => [(k, v)]
  | p :: rest, k, v => if p.1 = k then (k, v) :: rest else p :: setItem rest k v

/-- `localStorage.removeItem(k)`: drop the entry (all entries) for `k`. -/
def removeItem : Storage → String → Storage
  | [], _ => []
  | p :: rest, k => if p.1 = k then removeItem rest k else p :: removeItem rest k

/-- JS truthiness of a `string | null` value: `null` and `""` are falsy. -/
def truthy : Option String → Bool
  | none => false
  | some s => !(s = "")

/-- Model of `JSON.stringify` / `JSON.parse` on the store's state type `Val`.
`parse raw = none` models `JSON.parse(raw)` throwing on invalid JSON. -/
structure Codec (Val : Type) where
  stringify : Val → String
  parse : String → Option Val

/-- Real JSON restricted to boolean values: `JSON.stringify(true) == "true"`,
`JSON.parse("true") == true`, `JSON.parse("false") == false`, and `JSON.parse`
throws on any other of these strings. -/
def boolCodec : Codec Bool where
  stringify b := if b then "true" else "false"
  parse s := if s = "true" then some true else if s = "false" then some false else none

/-- `syncKey`: the template literal with the store id as the localStorage key
name for the snapshot. -/
def syncKey (storeId : String) : String := "pinia_" ++ storeId

/-- `sourceKey`: marks the current change-source window. -/
def sourceKey (storeId : String) : String := "pinia_" ++ storeId ++ "_sourceWindow"

/-- `acceptorKey`: marks the acceptor flag. -/
def acceptorKey (storeId : String) : String := "pinia_" ++ storeId ++ "_acceptorWindow"

/-- `isSourceWindow()`: `localStorage.getItem(sourceKey) === window.location.href`;
`href` is this window's `window.location.href`. -/
def isSourceWindow (storeId href : String) (s : Storage) : Bool :=
  getItem s (sourceKey storeId) = some href

/-- A single primitive `localStorage` mutation. -/
inductive StorageOp where
  | set : String → String → StorageOp
  | remove : String → StorageOp
deriving DecidableEq

/-- The key a storage operation touches. -/
def opKey : StorageOp → String
  | .set k _ => k
  | .remove k => k

/-- Run one storage operation. -/
def applyOp (s : Storage) : StorageOp → Storage
  | .set k v => setItem s k v
  | .remove k => removeItem s k

/-- Run a list of storage operations in order. -/
def applyOps (s : Storage) (ops : List StorageOp) : Storage :=
  ops.foldl applyOp s

/-- The storage operations `markAsSource()` performs: only when no change
source exists (`!localStorage.getItem(sourceKey)`, JS truthiness) it sets
`sourceKey` to this window's href and `acceptorKey` to `'false'`. -/
def markAsSourceOps (storeId href : String) (s : Storage) : List StorageOp :=
  if truthy (getItem s (sourceKey storeId)) then []
  else [.set (sourceKey storeId) href, .set (acceptorKey storeId) "false"]

/-- `markAsSource()`. -/
def markAsSource (storeId href : String) (s : Storage) : Storage :=
  applyOps s (markAsSourceOps storeId href s)

/-- The storage operations `markAsAcceptor()` performs: if this window is the
change source it returns immediately; otherwise it sets `acceptorKey` to
`'true'` and removes `sourceKey`. -/
def markAsAcceptorOps (storeId href : String) (s : Storage) : List StorageOp :=
  if isSourceWindow storeId href s then []
  else [.set (acceptorKey storeId) "true", .remove (sourceKey storeId)]

/-- `markAsAcceptor()`. -/
def markAsAcceptor (storeId href : String) (s : Storage) : Storage :=
  applyOps s (markAsAcceptorOps storeId href s)

/-- The `$subscribe` handler: `clearTimeout` on any pending timer, then
`setTimeout` a new flush capturing `state` — cancel-and-replace of the single
`debounceTimer` cell.  It performs no storage operation itself. -/
def scheduleFlush {Val : Type} (debounceTimer : Option Val) (state : Val) : Option Val :=
  match debounceTimer with
  | some _ => some state
  | none => some state

/-- The storage operations of the debounce timer callback, in program order:
`markAsSource()`, then `localStorage.setItem(syncKey, JSON.stringify(state))`,
then `markAsAcceptor()` (each helper reading the storage left by the prior step). -/
def flushOps {Val : Type} (C : Codec Val) (storeId href : String) (state : Val)
    (s : Storage) : List StorageOp :=
  let o1 := markAsSourceOps storeId href s
  let s1 := applyOps s o1
  let newState := C.stringify state
  let o2 := [StorageOp.set (syncKey storeId) newState]
  let s2 := applyOps s1 o2
  o1 ++ o2 ++ markAsAcceptorOps storeId href s2

/-- The debounce timer callback: the storage after `markAsSource()`;
`localStorage.setItem(syncKey, JSON.stringify(state))`; `markAsAcceptor()`. -/
def flush {Val : Type} (C : Codec Val) (storeId href : String) (state : Val)
    (s : Storage) : Storage :=
  applyOps s (flushOps C storeId href state s)

/-- The `storage` event listener. Arguments `key` / `newValue` are
`event.key` / `event.newValue` (both `string | null`), `s` the storage seen by
`isSourceWindow`, `localState` the current `store.$state`.
Result: `.ok none` = listener returns without patching; `.ok (some v)` =
`store.$patch(newState)` ran with full snapshot `v`; `.error ()` =
`JSON.parse(event.newValue)` threw (before any patch). -/
def storageHandler {Val : Type} (C : Codec Val) (storeId href : String)
    (key newValue : Option String) (s : Storage) (localState : Val) :
    Except Unit (Option Val) :=
  if key = some (syncKey storeId) ∧ truthy newValue = true then
    if isSourceWindow storeId href s then Except.ok none
    else
      match C.parse (newValue.getD "") with
      | none => Except.error ()
      | some newState =>
        if C.stringify localState ≠ C.stringify newState then Except.ok (some newState)
        else Except.ok none
  else Except.ok none

/-- JS truthiness of `options.synchronization : boolean | undefined`. -/
def syncEnabled : Option Bool → Bool
  | none => false
  | some b => b

/-- Cold-start replay: `const storedState = localStorage.getItem(syncKey);
if (storedState) store.$patch(JSON.parse(storedState))`.  `.error ()` is
`JSON.parse` throwing out of the plugin function. -/
def replayState {Val : Type} (C : Codec Val) (storedState : Option String)
    (st : Val) : Except Unit Val :=
  if truthy storedState = true then
    match C.parse (storedState.getD "") with
    | some v => Except.ok v
    | none => Except.error ()
  else Except.ok st

/-- Observable result of running the plugin function on one store:
final storage and store state, whether the `storage` event listener was
registered, whether `store.$subscribe` was called, and the `debounceTimer`
cell (initially `null`). -/
structure PluginInit (Val : Type) where
  storage : Storage
  state : Val
  listenerRegistered : Bool
  subscribed : Bool
  debounceTimer : Option Val

/-- `storageSyncPlugin(params)` for one store: if `!options.synchronization`,
return immediately (nothing registered, nothing touched).  Otherwise register
the `storage` listener and the `$subscribe` handler, replay any stored
snapshot via `store.$patch(JSON.parse(storedState))`, and finally
`if (!isSourceWindow()) markAsAcceptor()`. -/
def storageSyncPlugin {Val : Type} (C : Codec Val) (synchronization : Option Bool)
    (storeId href : String) (s : Storage) (st : Val) :
    Except Unit (PluginInit Val) :=
  if syncEnabled synchronization = false then
    Except.ok ⟨s, st, false, false, none⟩
  else
    match replayState C (getItem s (syncKey storeId)) st with
    | Except.error e => Except.error e
    | Except.ok newSt =>
      let s2 := if isSourceWindow storeId href s then s else markAsAcceptor storeId href s
      Except.ok ⟨s2, newSt, true, true, none⟩

/-! ## Basic storage lemmas -/

theorem getItem_setItem_self (s : Storage) (k v : String) :
    getItem (setItem s k v) k = some v := by
  induction s with
  | nil => simp [setItem, getItem]
  | cons p rest ih =>
    by_cases h : p.1 = k
    · simp [setItem, getItem, h]
    · simp [setItem, getItem, h, ih]

theorem getItem_setItem_other (s : Storage) (k v k' : String) (h : k' ≠ k) :
    getItem (setItem s k v) k' = getItem s k' := by
  have h' : k ≠ k' := Ne.symm h
  induction s with
  | nil => simp [setItem, getItem, h']
  | cons p rest ih =>
    by_cases hp : p.1 = k
    · simp [setItem, getItem, hp, h']
    · by_cases hp' : p.1 = k'
      · simp [setItem, getItem, hp, hp', h]
      · simp [setItem, getItem, hp, hp', ih]

theorem getItem_removeItem_self (s : Storage) (k : String) :
    getItem (removeItem s k) k = none := by
  induction s with
  | nil => simp [removeItem, getItem]
  | cons p rest ih =>
    by_cases h : p.1 = k
    · simp [removeItem, h, ih]
    · simp [removeItem, getItem, h, ih]

theorem getItem_removeItem_other (s : Storage) (k k' : String) (h : k' ≠ k) :
    getItem (removeItem s k) k' = getItem s k' := by
  induction s with
  | nil => simp [removeItem]
  | cons p rest ih =>
    by_cases hp : p.1 = k
    · simp [removeItem, getItem, hp, Ne.symm h, ih]
    · simp [removeItem, getItem, hp, ih]

/-! ## The three keys for one store id are pairwise distinct -/

theorem ne_of_length_ne {a b : String} (h : a.length ≠ b.length) : a ≠ b :=
  fun e => h (e ▸ rfl)

theorem syncKey_length (storeId : String) :
    (syncKey storeId).length = 6 + storeId.length := by
  have h6 : "pinia_".length = 6 := rfl
  simp [syncKey, String.length_append, h6]

theorem sourceKey_length (storeId : String) :
    (sourceKey storeId).length = 19 + storeId.length := by
  have h6 : "pinia_".length = 6 := rfl
  have h13 : "_sourceWindow".length = 13 := rfl
  simp [sourceKey, String.length_append, h6, h13]
  omega

theorem acceptorKey_length (storeId : String) :
    (acceptorKey storeId).length = 21 + storeId.length := by
  have h6 : "pinia_".length = 6 := rfl
  have h15 : "_acceptorWindow".length = 15 := rfl
  simp [acceptorKey, String.length_append, h6, h15]
  omega

theorem sourceKey_ne_syncKey (storeId : String) :
    sourceKey storeId ≠ syncKey storeId :=
  ne_of_length_ne (by rw [sourceKey_length, syncKey_length]; omega)

theorem acceptorKey_ne_syncKey (storeId : String) :
    acceptorKey storeId ≠ syncKey storeId :=
  ne_of_length_ne (by rw [acceptorKey_length, syncKey_length]; omega)

theorem acceptorKey_ne_sourceKey (storeId : String) :
    acceptorKey storeId ≠ sourceKey storeId :=
  ne_of_length_ne (by rw [acceptorKey_length, sourceKey_length]; omega)

theorem syncKey_ne_sourceKey (storeId : String) :
    syncKey storeId ≠ sourceKey storeId :=
  (sourceKey_ne_syncKey storeId).symm

theorem syncKey_ne_acceptorKey (storeId : String) :
    syncKey storeId ≠ acceptorKey storeId :=
  (acceptorKey_ne_syncKey storeId).symm

theorem sourceKey_ne_acceptorKey (storeId : String) :
    sourceKey storeId ≠ acceptorKey storeId :=
  (acceptorKey_ne_sourceKey storeId).symm

/-! ## Helper lemmas about the role-transition helpers and the flush -/

theorem applyOps_append (s : Storage) (a b : List StorageOp) :
    applyOps s (a ++ b) = applyOps (applyOps s a) b := by
  simp [applyOps, List.foldl_append]

theorem applyOps_nil (s : Storage) : applyOps s [] = s := rfl

/-- The flush is `markAsAcceptor` applied to the storage produced by
`markAsSource` followed by the snapshot write. -/
theorem flush_eq {Val : Type} (C : Codec Val) (storeId href : String) (st : Val)
    (s : Storage) :
    flush C storeId href st s =
      markAsAcceptor storeId href
        (setItem (markAsSource storeId href s) (syncKey storeId) (C.stringify st)) := by
  simp [flush, flushOps, applyOps_append, markAsSource, markAsAcceptor, applyOps, applyOp]

theorem markAsSource_of_truthy (storeId href : String) (s : Storage)
    (h : truthy (getItem s (sourceKey storeId)) = true) :
    markAsSource storeId href s = s := by
  simp [markAsSource, markAsSourceOps, h, applyOps_nil]

theorem markAsSource_of_falsy (storeId href : String) (s : Storage)
    (h : truthy (getItem s (sourceKey storeId)) = false) :
    markAsSource storeId href s =
      setItem (setItem s (sourceKey storeId) href) (acceptorKey storeId) "false" := by
  simp [markAsSource, markAsSourceOps, h, applyOps, applyOp]

theorem getItem_markAsSource_other {storeId href : String} (s : Storage) (k : String)
    (h1 : k ≠ sourceKey storeId) (h2 : k ≠ acceptorKey storeId) :
    getItem (markAsSource storeId href s) k = getItem s k := by
  cases ht : truthy (getItem s (sourceKey storeId)) with
  | true => rw [markAsSource_of_truthy storeId href s ht]
  | false =>
    rw [markAsSource_of_falsy storeId href s ht,
      getItem_setItem_other _ _ _ _ h2, getItem_setItem_other _ _ _ _ h1]

theorem markAsAcceptor_of_isSource (storeId href : String) (s : Storage)
    (h : isSourceWindow storeId href s = true) :
    markAsAcceptor storeId href s = s := by
  simp [markAsAcceptor, markAsAcceptorOps, h, applyOps_nil]

theorem markAsAcceptor_of_not_isSource (storeId href : String) (s : Storage)
    (h : isSourceWindow storeId href s = false) :
    markAsAcceptor storeId href s =
      removeItem (setItem s (acceptorKey storeId) "true") (sourceKey storeId) := by
  simp [markAsAcceptor, markAsAcceptorOps, h, applyOps, applyOp]

theorem getItem_markAsAcceptor_acceptorKey (storeId href : String) (s : Storage)
    (h : isSourceWindow storeId href s = false) :
    getItem (markAsAcceptor storeId href s) (acceptorKey storeId) = some "true" := by
  rw [markAsAcceptor_of_not_isSource storeId href s h,
    getItem_removeItem_other _ _ _ (acceptorKey_ne_sourceKey storeId),
    getItem_setItem_self]

theorem getItem_markAsAcceptor_sourceKey (storeId href : String) (s : Storage)
    (h : isSourceWindow storeId href s = false) :
    getItem (markAsAcceptor storeId href s) (sourceKey storeId) = none := by
  rw [markAsAcceptor_of_not_isSource storeId href s h, getItem_removeItem_self]

theorem getItem_markAsAcceptor_other {storeId href : String} (s : Storage) (k : String)
    (h1 : k ≠ sourceKey storeId) (h2 : k ≠ acceptorKey storeId) :
    getItem (markAsAcceptor storeId href s) k = getItem s k := by
  cases hs : isSourceWindow storeId href s with
  | true => rw [markAsAcceptor_of_isSource storeId href s hs]
  | false =>
    rw [markAsAcceptor_of_not_isSource storeId href s hs,
      getItem_removeItem_other _ _ _ h1, getItem_setItem_other _ _ _ _ h2]

/-- After a flush, the snapshot entry holds the serialization of the flushed
state — the two role helpers never touch the snapshot key. -/
theorem getItem_flush_syncKey {Val : Type} (C : Codec Val) (storeId href : String)
    (st : Val) (s : Storage) :
    getItem (flush C storeId href st s) (syncKey storeId) = some (C.stringify st) := by
  rw [flush_eq,
    getItem_markAsAcceptor_other _ _ (syncKey_ne_sourceKey storeId)
      (syncKey_ne_acceptorKey storeId),
    getItem_setItem_self]

/-! ## Reductions of the storage event listener -/

/-- A storage event whose guard fails does nothing, for any storage. -/
theorem storageHandler_guard_failed {Val : Type} (C : Codec Val) (storeId href : String)
    (key newValue : Option String) (s : Storage) (l : Val)
    (h : ¬ (key = some (syncKey storeId) ∧ truthy newValue = true)) :
    storageHandler C storeId href key newValue s l = Except.ok none := by
  simp [storageHandler, h]

/-- In a non-source window, a snapshot notification that deserializes to `v`
patches iff the serializations differ. -/
theorem storageHandler_parsed {Val : Type} (C : Codec Val) (storeId href : String)
    (s : Storage) (l : Val) (raw : String) (v : Val)
    (hs : isSourceWindow storeId href s = false)
    (hraw : raw ≠ "") (hp : C.parse raw = some v) :
    storageHandler C storeId href (some (syncKey storeId)) (some raw) s l =
      (if C.stringify l = C.stringify v then Except.ok none
       else Except.ok (some v)) := by
  simp [storageHandler, truthy, hraw, hs, hp]

/-- In a non-source window, a snapshot notification that fails to deserialize
propagates the `JSON.parse` exception. -/
theorem storageHandler_parse_failed {Val : Type} (C : Codec Val) (storeId href : String)
    (s : Storage) (l : Val) (raw : String)
    (hs : isSourceWindow storeId href s = false)
    (hraw : raw ≠ "") (hp : C.parse raw = none) :
    storageHandler C storeId href (some (syncKey storeId)) (some raw) s l =
      Except.error () := by
  simp [storageHandler, truthy, hraw, hs, hp]

/-- In a source window, any snapshot notification is ignored. -/
theorem storageHandler_of_isSource {Val : Type} (C : Codec Val) (storeId href : String)
    (s : Storage) (l : Val) (key newValue : Option String)
    (hs : isSourceWindow storeId href s = true) :
    storageHandler C storeId href key newValue s l = Except.ok none := by
  by_cases h : key = some (syncKey storeId) ∧ truthy newValue = true
  · simp [storageHandler, h, hs]
  · exact storageHandler_guard_failed C storeId href key newValue s l h

/-- Exact characterization of when the storage event listener throws. -/
theorem storageHandler_error_iff {Val : Type} (C : Codec Val) (storeId href : String)
    (key newValue : Option String) (s : Storage) (l : Val) :
    storageHandler C storeId href key newValue s l = Except.error () ↔
      key = some (syncKey storeId) ∧
      (∃ raw, newValue = some raw ∧ raw ≠ "" ∧ C.parse raw = none) ∧
      isSourceWindow storeId href s = false := by
  by_cases hk : key = some (syncKey storeId)
  · cases newValue with
    | none =>
      rw [storageHandler_guard_failed C storeId href key none s l (by simp [truthy])]
      simp
    | some raw =>
      by_cases hraw : raw = ""
      · rw [storageHandler_guard_failed C storeId href key (some raw) s l
          (by simp [truthy, hraw])]
        simp [hraw]
      · cases hs : isSourceWindow storeId href s with
        | true =>
          rw [storageHandler_of_isSource C storeId href s l key (some raw) hs]
          simp
        | false =>
          subst hk
          cases hp : C.parse raw with
          | none =>
            rw [storageHandler_parse_failed C storeId href s l raw hs hraw hp]
            simp [hraw, hp]
          | some v =>
            rw [storageHandler_parsed C storeId href s l raw v hs hraw hp]
            by_cases he : C.stringify l = C.stringify v
            · simp [he, hraw, hp]
            · simp [he, hraw, hp]
  · rw [storageHandler_guard_failed C storeId href key newValue s l
      (fun hc => hk hc.1)]
    simp [hk]

/-- Exact characterization of when the cold-start replay throws. -/
theorem replayState_error_iff {Val : Type} (C : Codec Val) (o : Option String)
    (st : Val) :
    replayState C o st = Except.error () ↔
      ∃ raw, o = some raw ∧ raw ≠ "" ∧ C.parse raw = none := by
  cases o with
  | none => simp [replayState, truthy]
  | some raw =>
    by_cases hraw : raw = ""
    · simp [replayState, truthy, hraw]
    · cases hp : C.parse raw with
      | none => simp [replayState, truthy, hraw, hp]
      | some v => simp [replayState, truthy, hraw, hp]

/-! ## Debounce helpers -/

/-- Folding a burst of mutations through the cancel-and-replace timer slot
leaves exactly the callback for the last mutation pending. -/
theorem foldl_scheduleFlush {Val : Type} :
    ∀ (muts : List Val) (h : muts ≠ []) (t0 : Option Val),
      List.foldl scheduleFlush t0 muts = some (muts.getLast h)
  | [v], _, t0 => by simp [scheduleFlush]; cases t0 <;> rfl
  | v :: w :: rest, _, t0 => by
    rw [List.foldl_cons]
    rw [foldl_scheduleFlush (w :: rest) (List.cons_ne_nil w rest) (scheduleFlush t0 v)]
    rw [List.getLast_cons (List.cons_ne_nil w rest)]

/-- The flush performs exactly one storage operation on the snapshot key:
writing the serialized flushed state. -/
theorem flushOps_snapshot_write {Val : Type} (C : Codec Val) (storeId href : String)
    (st : Val) (s : Storage) :
    (flushOps C storeId href st s).filter (fun op => opKey op = syncKey storeId) =
      [StorageOp.set (syncKey storeId) (C.stringify st)] := by
  have hsrc := sourceKey_ne_syncKey storeId
  have hacc := acceptorKey_ne_syncKey storeId
  rw [flushOps]
  by_cases h1 : truthy (getItem s (sourceKey storeId)) = true
  · simp [markAsSourceOps, markAsAcceptorOps, h1, List.filter, opKey, hsrc, hacc]
    intro a _ ha
    rcases ha with rfl | rfl
    · exact hacc
    · exact hsrc
  · simp only [Bool.not_eq_true] at h1
    simp [markAsSourceOps, markAsAcceptorOps, h1, List.filter, opKey, hsrc, hacc]
    intro a _ ha
    rcases ha with rfl | rfl
    · exact hacc
    · exact hsrc

/-! ## The claims -/

/-- Claim C1 is refuted by the code (code bug): the spec says that after a
debounce flush completes in the window holding the SourceMarker, the marker is
absent and the acceptor flag is true.  `markAsAcceptor` returns early exactly
when this window is the source, so the flush never releases a marker this
window holds — contradicting the comment at its call site in the flush, which
says the source marker is cleared there.  Concretely: store id `"s"`, window
`"w"` holding the marker with acceptor flag `'false'`; after the flush the
marker is still `"w"` and the flag still `'false'`. -/
theorem C1_flush_does_not_release_source :
    isSourceWindow "s" "w" [(sourceKey "s", "w"), (acceptorKey "s", "false")] = true ∧
    getItem (flush boolCodec "s" "w" true
      [(sourceKey "s", "w"), (acceptorKey "s", "false")]) (sourceKey "s") = some "w" ∧
    getItem (flush boolCodec "s" "w" true
      [(sourceKey "s", "w"), (acceptorKey "s", "false")]) (acceptorKey "s") =
      some "false" := by
  refine ⟨rfl, ?_, ?_⟩ <;> rfl

/-- Claim C2 as stated is refuted: with invalid JSON in the notification the
listener raises the `JSON.parse` exception rather than silently dropping the
update — concretely, in a non-source window a snapshot notification carrying
`"oops"` throws. -/
theorem C2_counterexample :
    storageHandler boolCodec "s" "w" (some (syncKey "s")) (some "oops") [] true =
      Except.error () := rfl

/-- Claim C2 amended: for every snapshot notification whose new value fails to
deserialize, no patch is applied and the local state is unchanged; the update
is dropped silently only when the new value is the empty string (the
truthiness guard rejects it before parsing) or the window holds the
SourceMarker (it returns before parsing) — for any other invalid value in a
non-source window the handler propagates the `JSON.parse` exception instead of
returning silently. -/
theorem C2_amended_invalid_json {Val : Type} (C : Codec Val) (storeId href : String)
    (s : Storage) (l : Val) (raw : String) (hp : C.parse raw = none) :
    storageHandler C storeId href (some (syncKey storeId)) (some raw) s l =
      (if raw = "" then Except.ok none
       else if isSourceWindow storeId href s = true then Except.ok none
       else Except.error ()) := by
  by_cases hraw : raw = ""
  · subst hraw
    rw [storageHandler_guard_failed C storeId href (some (syncKey storeId))
      (some "") s l (by simp [truthy])]
    simp
  · cases hs : isSourceWindow storeId href s with
    | true =>
      rw [storageHandler_of_isSource C storeId href s l (some (syncKey storeId))
        (some raw) hs]
      simp [hraw, hs]
    | false =>
      rw [storageHandler_parse_failed C storeId href s l raw hs hraw hp]
      simp [hraw, hs]

/-- Witness for the amended C2 at concrete inputs: a non-empty invalid value
throws in a non-source window, while the empty string (also invalid JSON) is
dropped silently by the guard. -/
theorem C2_amended_witness :
    storageHandler boolCodec "s" "w" (some (syncKey "s")) (some "nope") [] false =
      Except.error () ∧
    storageHandler boolCodec "s" "w" (some (syncKey "s")) (some "") [] false =
      Except.ok none := by
  have h1 := C2_amended_invalid_json boolCodec "s" "w" [] false "nope" rfl
  have h2 := C2_amended_invalid_json boolCodec "s" "w" [] false "" rfl
  have hs : isSourceWindow "s" "w" [] = false := rfl
  rw [hs] at h1
  exact ⟨by simpa using h1, by simpa using h2⟩

/-- Claim C3 as stated is refuted: the plugin can throw to the host.
Concretely, construction with an unparseable stored snapshot propagates the
`JSON.parse` exception out of the plugin function. -/
theorem C3_counterexample :
    storageSyncPlugin boolCodec (some true) "s" "w" [(syncKey "s", "oops")] true =
      Except.error () := rfl

/-- Claim C3 amended: the only exceptions any plugin operation raises are
`JSON.parse` failures — construction throws iff synchronization is enabled and
a truthy stored snapshot fails to parse, and the storage listener throws iff a
snapshot-key notification carries a truthy unparseable value while the window
is not the source; everything else (including the debounce flush, a pure
storage-to-storage function) returns normally. -/
theorem C3_amended_throws_only_on_parse {Val : Type} (C : Codec Val)
    (synchronization : Option Bool) (storeId href : String) (s : Storage)
    (st l : Val) (key newValue : Option String) :
    (storageSyncPlugin C synchronization storeId href s st = Except.error () ↔
      syncEnabled synchronization = true ∧
      ∃ raw, getItem s (syncKey storeId) = some raw ∧ raw ≠ "" ∧
        C.parse raw = none) ∧
    (storageHandler C storeId href key newValue s l = Except.error () ↔
      key = some (syncKey storeId) ∧
      (∃ raw, newValue = some raw ∧ raw ≠ "" ∧ C.parse raw = none) ∧
      isSourceWindow storeId href s = false) := by
  refine ⟨?_, storageHandler_error_iff C storeId href key newValue s l⟩
  cases hen : syncEnabled synchronization with
  | false => simp [storageSyncPlugin, hen]
  | true =>
    cases hrep : replayState C (getItem s (syncKey storeId)) st with
    | error e =>
      cases e
      have hex := (replayState_error_iff C (getItem s (syncKey storeId)) st).mp hrep
      simp [storageSyncPlugin, hen, hrep, hex]
    | ok newSt =>
      have hne : ¬ ∃ raw, getItem s (syncKey storeId) = some raw ∧ raw ≠ "" ∧
          C.parse raw = none := by
        intro hex
        rw [← replayState_error_iff C (getItem s (syncKey storeId)) st] at hex
        rw [hrep] at hex
        exact Except.noConfusion hex
      simp [storageSyncPlugin, hen, hrep, hne]

/-- Witness for the amended C3 at a concrete input. -/
theorem C3_amended_witness :
    storageSyncPlugin boolCodec (some true) "s" "w" [(syncKey "s", "nah")] false =
      Except.error () := by
  have h := (C3_amended_throws_only_on_parse boolCodec (some true) "s" "w"
    [(syncKey "s", "nah")] false false none none).1
  exact h.mpr ⟨rfl, "nah", rfl, by decide, rfl⟩

/-- Claim C4: while this window holds the SourceMarker (stored source value
equals its identity), the storage listener ignores every snapshot
notification — it returns without patching and the local state is unchanged. -/
theorem C4_source_window_ignores_remote {Val : Type} (C : Codec Val)
    (storeId href : String) (s : Storage) (newValue : Option String)
    (localState : Val) (h : isSourceWindow storeId href s = true) :
    storageHandler C storeId href (some (syncKey storeId)) newValue s localState =
      Except.ok none :=
  storageHandler_of_isSource C storeId href s localState (some (syncKey storeId))
    newValue h

/-- Witness for C4 at a concrete input. -/
theorem C4_witness :
    isSourceWindow "s" "w" [(sourceKey "s", "w")] = true ∧
    storageHandler boolCodec "s" "w" (some (syncKey "s")) (some "false")
      [(sourceKey "s", "w")] true = Except.ok none :=
  ⟨rfl, C4_source_window_ignores_remote boolCodec "s" "w" [(sourceKey "s", "w")]
    (some "false") true rfl⟩

/-- Claim C5: in a non-source window a deserialized remote snapshot is applied
via patch iff it differs from the local state (serialization comparison, which
under an injective serializer is structural difference), and delivering the
same snapshot when the local state already equals it produces no second
patch. -/
theorem C5_patch_iff_different {Val : Type} (C : Codec Val) (storeId href : String)
    (s : Storage) (l : Val) (raw : String) (v : Val)
    (hinj : ∀ a b : Val, C.stringify a = C.stringify b → a = b)
    (hs : isSourceWindow storeId href s = false)
    (hraw : raw ≠ "") (hp : C.parse raw = some v) :
    (storageHandler C storeId href (some (syncKey storeId)) (some raw) s l =
        Except.ok (some v) ↔ v ≠ l) ∧
    (v = l →
      storageHandler C storeId href (some (syncKey storeId)) (some raw) s l =
        Except.ok none) ∧
    storageHandler C storeId href (some (syncKey storeId)) (some raw) s v =
      Except.ok none := by
  rw [storageHandler_parsed C storeId href s l raw v hs hraw hp,
    storageHandler_parsed C storeId href s v raw v hs hraw hp]
  refine ⟨?_, ?_, by simp⟩
  · by_cases hvl : v = l
    · subst hvl
      simp
    · have he : C.stringify l ≠ C.stringify v := fun he => hvl (hinj l v he).symm
      simp [he, hvl]
  · intro hvl
    subst hvl
    simp

/-- Witness for C5 at a concrete input. -/
theorem C5_witness :
    storageHandler boolCodec "s" "w" (some (syncKey "s")) (some "true") [] false =
      Except.ok (some true) ∧
    storageHandler boolCodec "s" "w" (some (syncKey "s")) (some "true") [] true =
      Except.ok none := by
  have h := C5_patch_iff_different boolCodec "s" "w" [] false "true" true
    (fun a b => by cases a <;> cases b <;> simp [boolCodec]) rfl (by decide) rfl
  exact ⟨h.1.mpr (by decide), h.2.2⟩

/-- Claim C6: the `$subscribe` handler is cancel-and-replace on the single
timer cell, so a burst of `N ≥ 1` mutations leaves exactly the callback of the
last one pending, and the flush it triggers performs exactly one storage write
to the snapshot key, carrying the serialization of the last mutation's
state. -/
theorem C6_debounce_collapses_burst {Val : Type} (C : Codec Val)
    (storeId href : String) (s : Storage) (muts : List Val) (h : muts ≠ [])
    (t0 : Option Val) :
    (∀ (t : Option Val) (v : Val), scheduleFlush t v = some v) ∧
    List.foldl scheduleFlush t0 muts = some (muts.getLast h) ∧
    (flushOps C storeId href (muts.getLast h) s).filter
        (fun op => opKey op = syncKey storeId) =
      [StorageOp.set (syncKey storeId) (C.stringify (muts.getLast h))] :=
  ⟨fun t v => by cases t <;> rfl,
   foldl_scheduleFlush muts h t0,
   flushOps_snapshot_write C storeId href (muts.getLast h) s⟩

/-- Witness for C6 at a concrete input. -/
theorem C6_witness :
    List.foldl scheduleFlush none [true, false, true] = some true ∧
    (flushOps boolCodec "s" "w" true []).filter
        (fun op => opKey op = syncKey "s") =
      [StorageOp.set (syncKey "s") "true"] := by
  have h := C6_debounce_collapses_burst boolCodec "s" "w" [] [true, false, true]
    (by decide) none
  exact ⟨h.2.1, h.2.2⟩

/-- Claim C7: when the flush fires, `markAsSource` writes this window's
identity and clears the acceptor flag iff no SourceMarker exists; a marker
already held by some window (a non-empty value) leaves the storage completely
untouched by that step; and in either case the serialized state ends up as the
snapshot unconditionally. -/
theorem C7_claim_step_and_unconditional_write {Val : Type} (C : Codec Val)
    (storeId href : String) (st : Val) (s : Storage) :
    (getItem s (sourceKey storeId) = none →
      getItem (markAsSource storeId href s) (sourceKey storeId) = some href ∧
      getItem (markAsSource storeId href s) (acceptorKey storeId) = some "false") ∧
    (∀ v : String, v ≠ "" → getItem s (sourceKey storeId) = some v →
      markAsSource storeId href s = s) ∧
    getItem (flush C storeId href st s) (syncKey storeId) = some (C.stringify st) := by
  refine ⟨?_, ?_, getItem_flush_syncKey C storeId href st s⟩
  · intro h
    rw [markAsSource_of_falsy storeId href s (by simp [truthy, h])]
    constructor
    · rw [getItem_setItem_other _ _ _ _ (sourceKey_ne_acceptorKey storeId),
        getItem_setItem_self]
    · rw [getItem_setItem_self]
  · intro v hv h
    exact markAsSource_of_truthy storeId href s (by simp [truthy, h, hv])

/-- Witness for C7 at concrete inputs. -/
theorem C7_witness :
    getItem (markAsSource "s" "w" []) (sourceKey "s") = some "w" ∧
    getItem (markAsSource "s" "w" []) (acceptorKey "s") = some "false" ∧
    markAsSource "s" "w" [(sourceKey "s", "v")] = [(sourceKey "s", "v")] ∧
    getItem (flush boolCodec "s" "w" false []) (syncKey "s") = some "false" :=
  ⟨((C7_claim_step_and_unconditional_write boolCodec "s" "w" false []).1 rfl).1,
   ((C7_claim_step_and_unconditional_write boolCodec "s" "w" false []).1 rfl).2,
   (C7_claim_step_and_unconditional_write boolCodec "s" "w" false
     [(sourceKey "s", "v")]).2.1 "v" (by decide) rfl,
   (C7_claim_step_and_unconditional_write boolCodec "s" "w" false []).2.2⟩

/-- Claim C8: at construction with synchronization enabled and a parseable
stored snapshot, the deserialized snapshot is patched into the store (before
any mutation: the debounce timer cell is still empty) and, if this window does
not hold the SourceMarker, the storage transitions to acceptor — flag true,
marker removed. -/
theorem C8_cold_start_replay {Val : Type} (C : Codec Val) (storeId href : String)
    (s : Storage) (st : Val) (raw : String) (v : Val)
    (hstored : getItem s (syncKey storeId) = some raw) (hraw : raw ≠ "")
    (hp : C.parse raw = some v) :
    storageSyncPlugin C (some true) storeId href s st =
      Except.ok ⟨(if isSourceWindow storeId href s = true then s
                  else markAsAcceptor storeId href s), v, true, true, none⟩ ∧
    (isSourceWindow storeId href s = false →
      getItem (markAsAcceptor storeId href s) (acceptorKey storeId) = some "true" ∧
      getItem (markAsAcceptor storeId href s) (sourceKey storeId) = none) := by
  constructor
  · simp [storageSyncPlugin, syncEnabled, replayState, hstored, truthy, hraw, hp]
  · intro hs
    exact ⟨getItem_markAsAcceptor_acceptorKey storeId href s hs,
      getItem_markAsAcceptor_sourceKey storeId href s hs⟩

/-- Witness for C8 at a concrete input. -/
theorem C8_witness :
    storageSyncPlugin boolCodec (some true) "s" "w"
      [(syncKey "s", "true"), (sourceKey "s", "o")] false =
      Except.ok ⟨markAsAcceptor "s" "w" [(syncKey "s", "true"), (sourceKey "s", "o")],
        true, true, true, none⟩ ∧
    getItem (markAsAcceptor "s" "w" [(syncKey "s", "true"), (sourceKey "s", "o")])
      (acceptorKey "s") = some "true" ∧
    getItem (markAsAcceptor "s" "w" [(syncKey "s", "true"), (sourceKey "s", "o")])
      (sourceKey "s") = none := by
  have h := C8_cold_start_replay boolCodec "s" "w"
    [(syncKey "s", "true"), (sourceKey "s", "o")] false "true" true rfl (by decide) rfl
  have hs : isSourceWindow "s" "w" [(syncKey "s", "true"), (sourceKey "s", "o")] =
      false := rfl
  have h1 := h.1
  rw [hs] at h1
  exact ⟨by simpa using h1, (h.2 hs).1, (h.2 hs).2⟩

/-- Claim C9: with the `synchronization` option absent or false the plugin
returns immediately — no listener, no subscription, no timer, storage and
store state untouched. -/
theorem C9_disabled_plugin_inert {Val : Type} (C : Codec Val)
    (synchronization : Option Bool) (storeId href : String) (s : Storage) (st : Val)
    (h : syncEnabled synchronization = false) :
    storageSyncPlugin C synchronization storeId href s st =
      Except.ok ⟨s, st, false, false, none⟩ := by
  simp [storageSyncPlugin, h]

/-- Witness for C9 at a concrete input (the stored snapshot is even
unparseable — the disabled plugin still touches nothing and cannot throw). -/
theorem C9_witness :
    syncEnabled none = false ∧
    storageSyncPlugin boolCodec none "s" "w" [(syncKey "s", "oops")] true =
      Except.ok ⟨[(syncKey "s", "oops")], true, false, false, none⟩ :=
  ⟨rfl, C9_disabled_plugin_inert boolCodec none "s" "w" [(syncKey "s", "oops")]
    true rfl⟩

/-- Claim C10: a storage notification whose key is not the snapshot key (for
example the marker keys), or whose new value is absent or the empty string, is
a no-op: no patch, no exception, and the result does not depend on (hence
reads nothing from) the shared channel. -/
theorem C10_non_snapshot_events_inert {Val : Type} (C : Codec Val)
    (storeId href : String) (key newValue : Option String) (l : Val)
    (h : ¬ (key = some (syncKey storeId) ∧ truthy newValue = true)) :
    (∀ s : Storage, storageHandler C storeId href key newValue s l = Except.ok none) ∧
    (∀ s s' : Storage,
      storageHandler C storeId href key newValue s l =
        storageHandler C storeId href key newValue s' l) := by
  refine ⟨fun s => storageHandler_guard_failed C storeId href key newValue s l h, ?_⟩
  intro s s'
  rw [storageHandler_guard_failed C storeId href key newValue s l h,
    storageHandler_guard_failed C storeId href key newValue s' l h]

/-- Witness for C10 at concrete inputs: a SourceMarker-key change and an
empty-string snapshot value are both ignored. -/
theorem C10_witness :
    storageHandler boolCodec "s" "w" (some (sourceKey "s")) (some "w2")
      [(sourceKey "s", "w2")] true = Except.ok none ∧
    storageHandler boolCodec "s" "w" (some (syncKey "s")) (some "") [] true =
      Except.ok none :=
  ⟨(C10_non_snapshot_events_inert boolCodec "s" "w" (some (sourceKey "s"))
      (some "w2") true (by decide)).1 [(sourceKey "s", "w2")],
   (C10_non_snapshot_events_inert boolCodec "s" "w" (some (syncKey "s"))
      (some "") true (by decide)).1 []⟩
